import Mathlib

/-!
Shallow embedding of the frame-classification and extraction core of
`src/legacy-code/main.cpp` (poketext-gen4).

Pixel buffers are modelled as total functions from byte addresses to byte
values (`Buf := ℤ → ℕ`), exactly as the C code addresses them:
channel `ch` of the pixel at column `x`, row `y` lives at address
`y * wrap + 3 * x + ch`.  The C `double` tolerance/magnification values are
modelled as rationals, and `std::round` as round-half-away-from-zero.
-/

/-- A pixel buffer: byte address to byte value (as the C code's
`unsigned char *data`). -/
def Buf : Type := ℤ → ℕ

/-- Floor of a rational number, computed with flooring integer division
(the denominator of a `Rat` is positive). -/
def qfloor (q : ℚ) : ℤ :=
  Int.fdiv q.num (q.den : ℤ)

/-- C++ `std::round`: round half away from zero. -/
def cround (q : ℚ) : ℤ :=
  if q < 0 then - qfloor (- q + 1 / 2) else qfloor (q + 1 / 2)

/-- `struct coords` from the source. -/
structure coords where
  x : ℤ
  y : ℤ
deriving DecidableEq

/-- `struct rectangle_coords` from the source. -/
structure rectangle_coords where
  top_left : coords
  x_size : ℤ
  y_size : ℤ
  magnification : ℚ
deriving DecidableEq

/-- `top_screen_coords`: derives the textbox-bearing region and scale from
the frame dimensions.  `width / 4` is C integer division, which truncates
toward zero (`Int.tdiv`). -/
def top_screen_coords (width height : ℤ) : rectangle_coords :=
  { top_left := ⟨Int.tdiv width 4, 0⟩
    x_size := width - Int.tdiv width 4
    y_size := height
    magnification := ((width - Int.tdiv width 4 : ℤ) : ℚ) / 256 }

/-- One pixel of the white test in `white_rectangle`: all three channels
strictly exceed `color_intensity`. -/
def pixelWhite (data : Buf) (a : ℤ) (c : ℕ) : Bool :=
  decide (c < data a ∧ c < data (a + 1) ∧ c < data (a + 2))

/-- Inner loop of `white_rectangle`: scan `n` pixels of one row starting at
byte address `base`, returning `(white, not_white)` counts. -/
def countRow (data : Buf) (base : ℤ) (c : ℕ) : ℕ → ℕ × ℕ
  | 0 => (0, 0)
  | n + 1 =>
    let p := countRow data base c n
    if pixelWhite data (base + 3 * n) c = true then (p.1 + 1, p.2) else (p.1, p.2 + 1)

/-- Outer loop of `white_rectangle`: scan `n` rows of `xs` pixels,
row `k` starting at byte address `(y0 + k) * wrap + 3 * x0`. -/
def countRows (data : Buf) (wrap x0 y0 : ℤ) (c : ℕ) (xs : ℕ) : ℕ → ℕ × ℕ
  | 0 => (0, 0)
  | n + 1 =>
    let p := countRows data wrap x0 y0 c xs n
    let q := countRow data ((y0 + n) * wrap + 3 * x0) c xs
    (p.1 + q.1, p.2 + q.2)

/-- `white_rectangle`: the Region Sampler.  True iff the rectangle is
accepted as near-white: `non_white_strictness * not_white ≤ white`. -/
def white_rectangle (data : Buf) (wrap : ℤ) (r : rectangle_coords)
    (non_white_strictness : ℚ) (color_intensity : ℕ) : Bool :=
  let p := countRows data wrap r.top_left.x r.top_left.y color_intensity
    r.x_size.toNat r.y_size.toNat
  if non_white_strictness * (p.2 : ℚ) > (p.1 : ℚ) then false else true

/-- Specification-level white-pixel count of a rectangle: the number of
pixel positions `(row k, column j)` whose three channels all strictly
exceed the threshold. -/
def whiteCount (data : Buf) (wrap : ℤ) (r : rectangle_coords) (c : ℕ) : ℕ :=
  ((Finset.range r.y_size.toNat ×ˢ Finset.range r.x_size.toNat).filter
    (fun p =>
      pixelWhite data ((r.top_left.y + p.1) * wrap + 3 * r.top_left.x + 3 * p.2) c = true)).card

/-- Specification-level not-white count: pixel positions failing the
strict three-channel test. -/
def notWhiteCount (data : Buf) (wrap : ℤ) (r : rectangle_coords) (c : ℕ) : ℕ :=
  ((Finset.range r.y_size.toNat ×ˢ Finset.range r.x_size.toNat).filter
    (fun p =>
      pixelWhite data ((r.top_left.y + p.1) * wrap + 3 * r.top_left.x + 3 * p.2) c = false)).card

/-- The thin bottom strip tested first by `textbox` (reference y 183,
height 1, x 28, width 166 from the region's origin). -/
def bottom_white_line (ts : rectangle_coords) : rectangle_coords :=
  { top_left := ⟨ts.top_left.x + cround (ts.magnification * 28),
                 ts.top_left.y + cround (ts.magnification * 183)⟩
    x_size := cround (ts.magnification * 166)
    y_size := cround (ts.magnification * 1)
    magnification := 0 }

/-- The left border strip of the textbox (reference y 144, width 8,
height `region height - 144`). -/
def left_border (ts : rectangle_coords) : rectangle_coords :=
  { top_left := ⟨ts.top_left.x, ts.top_left.y + cround (ts.magnification * 144)⟩
    x_size := cround (ts.magnification * 8)
    y_size := ts.y_size - cround (ts.magnification * 144)
    magnification := 0 }

/-- The right border strip of the textbox. -/
def right_border (ts : rectangle_coords) : rectangle_coords :=
  { top_left := ⟨ts.top_left.x + ts.x_size - cround (ts.magnification * 8),
                 ts.top_left.y + cround (ts.magnification * 144)⟩
    x_size := cround (ts.magnification * 8)
    y_size := ts.y_size - cround (ts.magnification * 144)
    magnification := 0 }

/-- The mid strip between the two text lines (reference y 168, height 1). -/
def mid_white_line (ts : rectangle_coords) : rectangle_coords :=
  { top_left := ⟨ts.top_left.x + cround (ts.magnification * 28),
                 ts.top_left.y + cround (ts.magnification * 168)⟩
    x_size := cround (ts.magnification * 166)
    y_size := cround (ts.magnification * 1)
    magnification := 0 }

/-- The thicker bottom strip used in the scroll branch (reference y 182,
height 2). -/
def extra_bottom_white_line (ts : rectangle_coords) : rectangle_coords :=
  { top_left := ⟨ts.top_left.x + cround (ts.magnification * 28),
                 ts.top_left.y + cround (ts.magnification * 182)⟩
    x_size := cround (ts.magnification * 166)
    y_size := cround (ts.magnification * 2)
    magnification := 0 }

/-- Alternative mid strip for scroll frame 1 (reference y 164). -/
def mid_white_line_2 (ts : rectangle_coords) : rectangle_coords :=
  { top_left := ⟨ts.top_left.x + cround (ts.magnification * 28),
                 ts.top_left.y + cround (ts.magnification * 164)⟩
    x_size := cround (ts.magnification * 166)
    y_size := cround (ts.magnification * 1)
    magnification := 0 }

/-- Alternative mid strip for scroll frame 2 (reference y 160). -/
def mid_white_line_3 (ts : rectangle_coords) : rectangle_coords :=
  { top_left := ⟨ts.top_left.x + cround (ts.magnification * 28),
                 ts.top_left.y + cround (ts.magnification * 160)⟩
    x_size := cround (ts.magnification * 166)
    y_size := cround (ts.magnification * 1)
    magnification := 0 }

/-- Alternative mid strip for scroll frame 3 (reference y 156). -/
def mid_white_line_4 (ts : rectangle_coords) : rectangle_coords :=
  { top_left := ⟨ts.top_left.x + cround (ts.magnification * 28),
                 ts.top_left.y + cround (ts.magnification * 156)⟩
    x_size := cround (ts.magnification * 166)
    y_size := cround (ts.magnification * 1)
    magnification := 0 }

/-- The strip above the first text line (reference y 152, height 1). -/
def top_white_line (ts : rectangle_coords) : rectangle_coords :=
  { top_left := ⟨ts.top_left.x + cround (ts.magnification * 28),
                 ts.top_left.y + cround (ts.magnification * 152)⟩
    x_size := cround (ts.magnification * 166)
    y_size := cround (ts.magnification * 1)
    magnification := 0 }

/-- `textbox`: the Frame Classifier.  Returns 0 (NONE), 1 (OPEN),
2/3/4 (SCROLL frames 1-3) or 5 (LARGE_TEXT), following the source's
decision tree verbatim. -/
def textbox (data : Buf) (wrap : ℤ) (ts : rectangle_coords) : ℕ :=
  if white_rectangle data wrap (bottom_white_line ts) 1 235 = false then 0
  else if white_rectangle data wrap (left_border ts) 1 235 = true then 0
  else if white_rectangle data wrap (right_border ts) 1 235 = true then 0
  else if white_rectangle data wrap (mid_white_line ts) 50 225 = false then
    (if white_rectangle data wrap (extra_bottom_white_line ts) 50 225 = true ∧
        white_rectangle data wrap (mid_white_line_2 ts) 50 225 = true then 2
     else if white_rectangle data wrap (extra_bottom_white_line ts) 50 225 = true ∧
        white_rectangle data wrap (mid_white_line_3 ts) 50 225 = true then 3
     else if white_rectangle data wrap (extra_bottom_white_line ts) 50 225 = true ∧
        white_rectangle data wrap (mid_white_line_4 ts) 50 225 = true then 4
     else if white_rectangle data wrap (mid_white_line_2 ts) 50 225 = false ∧
        white_rectangle data wrap (mid_white_line_3 ts) 50 225 = false ∧
        white_rectangle data wrap (mid_white_line_4 ts) 50 225 = false then
       (if white_rectangle data wrap (top_white_line ts) 50 225 = true then 5 else 0)
     else 0)
  else
    (if white_rectangle data wrap (top_white_line ts) 50 225 = true then 1 else 0)

/-- The textbox content rectangle (reference offset 13,152, size 220 by 33),
as computed in `empty_textbox`, `compare_textboxes`, `save_textbox` and
`copy_data`. -/
def content_rect (ts : rectangle_coords) : rectangle_coords :=
  { top_left := ⟨ts.top_left.x + cround (ts.magnification * 13),
                 ts.top_left.y + cround (ts.magnification * 152)⟩
    x_size := cround (ts.magnification * 220)
    y_size := cround (ts.magnification * 33)
    magnification := 0 }

/-- The second-line sub-rectangle (reference offset 13,168, size 220 by 17),
as computed in `save_second_line`. -/
def second_line_rect (ts : rectangle_coords) : rectangle_coords :=
  { top_left := ⟨ts.top_left.x + cround (ts.magnification * 13),
                 ts.top_left.y + cround (ts.magnification * 168)⟩
    x_size := cround (ts.magnification * 220)
    y_size := cround (ts.magnification * 17)
    magnification := 0 }

/-- `empty_textbox`: the Emptiness Test (tolerance 40, threshold 235 over
the content rectangle). -/
def empty_textbox (data : Buf) (wrap : ℤ) (ts : rectangle_coords) : Bool :=
  white_rectangle data wrap (content_rect ts) 40 235

/-- Per-channel absolute difference, as computed in `compare_textboxes`
(branch on which operand is larger). -/
def absdiff (a b : ℕ) : ℕ :=
  if a > b then a - b else b - a

/-- One pixel of the change test: some channel differs by more than 50. -/
def pixelChanged (data_old data_new : Buf) (a : ℤ) : Bool :=
  decide (50 < absdiff (data_old a) (data_new a) ∨
    50 < absdiff (data_old (a + 1)) (data_new (a + 1)) ∨
    50 < absdiff (data_old (a + 2)) (data_new (a + 2)))

/-- Inner loop of `compare_textboxes`: changed pixels in one row. -/
def countChangedRow (data_old data_new : Buf) (base : ℤ) : ℕ → ℕ
  | 0 => 0
  | n + 1 =>
    countChangedRow data_old data_new base n +
      (if pixelChanged data_old data_new (base + 3 * n) = true then 1 else 0)

/-- Outer loop of `compare_textboxes`: changed pixels in `n` rows. -/
def countChangedRows (data_old data_new : Buf) (wrap x0 y0 : ℤ) (xs : ℕ) : ℕ → ℕ
  | 0 => 0
  | n + 1 =>
    countChangedRows data_old data_new wrap x0 y0 xs n +
      countChangedRow data_old data_new ((y0 + n) * wrap + 3 * x0) xs

/-- `compare_textboxes`: the Change Detector.  True iff the changed-pixel
count in the content rectangle strictly exceeds `300 * magnification^2`. -/
def compare_textboxes (data_old data_new : Buf) (wrap : ℤ) (ts : rectangle_coords) : Bool :=
  let part := content_rect ts
  let changed := countChangedRows data_old data_new wrap part.top_left.x part.top_left.y
    part.x_size.toNat part.y_size.toNat
  if (changed : ℚ) > 300 * ts.magnification * ts.magnification then true else false

/-- Specification-level changed-pixel count over a rectangle. -/
def changedCount (data_old data_new : Buf) (wrap : ℤ) (r : rectangle_coords) : ℕ :=
  ((Finset.range r.y_size.toNat ×ˢ Finset.range r.x_size.toNat).filter
    (fun p =>
      pixelChanged data_old data_new
        ((r.top_left.y + p.1) * wrap + 3 * r.top_left.x + 3 * p.2) = true)).card

/-- Inner loop of `copy_data`: overwrite the 3 bytes of each of the first
`n` pixels of a row (byte addresses `base + 3*k`, `+1`, `+2`) with the
corresponding bytes of `src`. -/
def copyRow (dst src : Buf) (base : ℤ) : ℕ → Buf
  | 0 => dst
  | n + 1 =>
    let f := copyRow dst src base n
    fun a => if a = base + 3 * n ∨ a = base + 3 * n + 1 ∨ a = base + 3 * n + 2
      then src a else f a

/-- Outer loop of `copy_data`: overwrite `n` rows, row `k` starting at
byte address `(y0 + k) * wrap + 3 * x0`. -/
def copyRows (dst src : Buf) (wrap x0 y0 : ℤ) (xs : ℕ) : ℕ → Buf
  | 0 => dst
  | n + 1 => copyRow (copyRows dst src wrap x0 y0 xs n) src ((y0 + n) * wrap + 3 * x0) xs

/-- `copy_data`: the end-of-frame Frame History Buffer update.  Overwrites
the content rectangle of `old_data` with the bytes of `data`; the result is
the new history buffer. -/
def copy_data (old_data data : Buf) (wrap : ℤ) (ts : rectangle_coords) : Buf :=
  copyRows old_data data wrap (content_rect ts).top_left.x (content_rect ts).top_left.y
    (content_rect ts).x_size.toNat (content_rect ts).y_size.toNat

/-- The mutable cross-frame state of the Extraction State Machine:
the `static` variables of `decode` plus the history buffer `old_frame`. -/
structure pt_state where
  old_textbox : ℕ
  insta_textbox : Bool
  only_second_line : Bool
  old_frame : Buf

/-- Observable actions of one `decode` iteration: a capture request
(source frame, cropped rectangle, recognized text), a line appended to the
output file with a line terminator, or a fragment appended without one. -/
inductive event where
  | cap : Buf → rectangle_coords → String → event
  | out_line : String → event
  | out_frag : String → event

/-- The `insta_textbox` re-evaluation after capturing the current frame
(lines 397-400 and 443-446 of the source): cleared when the textbox is
empty, set when the recognized text has length above 3, else unchanged. -/
def insta_update (ocr : Buf → rectangle_coords → String) (wrap : ℤ)
    (ts : rectangle_coords) (insta0 : Bool) (frame : Buf) : Bool :=
  if empty_textbox frame wrap ts = true then false
  else if 3 < (ocr frame (content_rect ts)).length then true
  else insta0

/-- The shared "capture the previous frame" block (lines 407-421 and
425-439 of the source): full content rectangle when `only_second_line` is
clear, otherwise the second-line rectangle, clearing the flag.  Returns the
emitted events and the updated `only_second_line`. -/
def old_capture (ocr : Buf → rectangle_coords → String) (ts : rectangle_coords)
    (old_frame : Buf) (osl : Bool) : List event × Bool :=
  if osl = false then
    ([event.cap old_frame (content_rect ts) (ocr old_frame (content_rect ts)),
      event.out_line (ocr old_frame (content_rect ts))], osl)
  else
    ([event.cap old_frame (second_line_rect ts) (ocr old_frame (second_line_rect ts)),
      event.out_line (ocr old_frame (second_line_rect ts))], false)

/-- One frame of the Extraction State Machine: the body of the per-frame
loop in `decode` (lines 377-469 of the source), parametrized by the OCR
collaborator `ocr`.  Returns the events emitted on this frame, in order,
and the successor state. -/
def step (ocr : Buf → rectangle_coords → String) (wrap : ℤ) (ts : rectangle_coords)
    (st : pt_state) (frame : Buf) : List event × pt_state :=
  let new_textbox := textbox frame wrap ts
  let r :=
    if st.old_textbox = 0 then
      (if new_textbox = 1 ∨ new_textbox = 5 then
        ([event.cap frame (content_rect ts) (ocr frame (content_rect ts))],
         insta_update ocr wrap ts st.insta_textbox frame,
         st.only_second_line)
      else ([], st.insta_textbox, st.only_second_line))
    else if st.old_textbox = 1 ∨ st.old_textbox = 5 then
      let p1 :=
        if new_textbox = 0 ∧ st.insta_textbox = false then
          old_capture ocr ts st.old_frame st.only_second_line
        else ([], st.only_second_line)
      let p2 :=
        if (new_textbox = 1 ∨ new_textbox = 5) ∧
            compare_textboxes st.old_frame frame wrap ts = true ∧
            st.insta_textbox = false then
          let q := old_capture ocr ts st.old_frame p1.2
          (q.1 ++ [event.cap frame (content_rect ts) (ocr frame (content_rect ts))],
           insta_update ocr wrap ts st.insta_textbox frame,
           q.2)
        else (([] : List event), st.insta_textbox, p1.2)
      let insta3 :=
        if (new_textbox = 1 ∨ new_textbox = 5) ∧
            compare_textboxes st.old_frame frame wrap ts = true ∧
            p2.2.1 = true then false
        else p2.2.1
      let p4 :=
        if (new_textbox = 2 ∨ new_textbox = 3 ∨ new_textbox = 4) ∧ insta3 = false then
          [event.cap st.old_frame (content_rect ts) (ocr st.old_frame (content_rect ts)),
           event.out_frag (ocr st.old_frame (content_rect ts))]
        else []
      (p1.1 ++ p2.1 ++ p4, insta3, p2.2.2)
    else if st.old_textbox = 2 ∨ st.old_textbox = 3 ∨ st.old_textbox = 4 then
      (([] : List event), st.insta_textbox, true)
    else (([] : List event), st.insta_textbox, st.only_second_line)
  (r.1,
   { old_textbox := new_textbox
     insta_textbox := if new_textbox = 0 then false else r.2.1
     only_second_line := r.2.2
     old_frame := copy_data st.old_frame frame wrap ts })

/-- The all-zero (black) pixel buffer. -/
def bufZero : Buf := fun _ => 0

/-- A constant pixel buffer with every byte equal to 7. -/
def buf7 : Buf := fun _ => 7

/-- A constant pixel buffer with every byte equal to 5. -/
def buf5 : Buf := fun _ => 5

/-- A constant pixel buffer with every byte equal to 6. -/
def buf6 : Buf := fun _ => 6

/-- A buffer whose first pixel (bytes 0-2) is 255 and all others 0. -/
def d1 : Buf := fun a => if a < 3 then 255 else 0

/-- A 2 by 1 test rectangle at the origin. -/
def r12 : rectangle_coords := ⟨⟨0, 0⟩, 2, 1, 0⟩

/-- A 2 by 2 test rectangle at the origin. -/
def r22 : rectangle_coords := ⟨⟨0, 0⟩, 2, 2, 0⟩

/-- A zero-width test rectangle. -/
def rEmpty : rectangle_coords := ⟨⟨5, 5⟩, 0, 3, 0⟩

/-- Geometry of a 170 by 74 frame: region x 42, width 128, scale 1/2. -/
def g170 : rectangle_coords := top_screen_coords 170 74

/-- Geometry of a 10 by 10 frame: region x 2, width 8, scale 1/32
(the border strips round to width 0, so every frame classifies as NONE). -/
def g10 : rectangle_coords := top_screen_coords 10 10

/-- A synthetic frame for geometry `g170` (row stride 510) that classifies
as SCROLL_A (code 2): rows 82, 91 and 92 are white, everything else black. -/
def F2 : Buf := fun a =>
  if Int.ediv a 510 = 82 ∨ Int.ediv a 510 = 91 ∨ Int.ediv a 510 = 92 then 255 else 0

/-- A stub OCR collaborator that always recognizes the text "K". -/
def ocrK : Buf → rectangle_coords → String := fun _ _ => "K"

/-- A state with previous code OPEN, insta-textbox clear and
pending-second-line set. -/
def stC2 : pt_state := ⟨1, false, true, bufZero⟩

/-- A state with previous code OPEN and insta-textbox set. -/
def stC4 : pt_state := ⟨1, true, false, bufZero⟩

/-- A state with previous code SCROLL_A and insta-textbox set. -/
def stC8 : pt_state := ⟨2, true, false, bufZero⟩

theorem countRow_fst (d : Buf) (b : ℤ) (c : ℕ) (n : ℕ) :
    (countRow d b c n).1 =
      ((Finset.range n).filter (fun j : ℕ => pixelWhite d (b + 3 * (j : ℤ)) c = true)).card := by
  induction n with
  | zero => simp [countRow]
  | succ n ih =>
    rw [Finset.range_succ, Finset.filter_insert]
    by_cases h : pixelWhite d (b + 3 * n) c = true
    · rw [if_pos h, Finset.card_insert_of_not_mem (by simp)]
      simp [countRow, h, ih]
    · rw [if_neg h]
      simp [countRow, h, ih]

theorem countRow_snd (d : Buf) (b : ℤ) (c : ℕ) (n : ℕ) :
    (countRow d b c n).2 =
      ((Finset.range n).filter (fun j : ℕ => pixelWhite d (b + 3 * (j : ℤ)) c = false)).card := by
  induction n with
  | zero => simp [countRow]
  | succ n ih =>
    rw [Finset.range_succ, Finset.filter_insert]
    by_cases h : pixelWhite d (b + 3 * n) c = true
    · rw [if_neg (by simp [h])]
      simp [countRow, h, ih]
    · rw [if_pos (by simp at h; exact h), Finset.card_insert_of_not_mem (by simp)]
      simp [countRow, h, ih]

theorem countRows_fst (d : Buf) (wrap x0 y0 : ℤ) (c : ℕ) (xs n : ℕ) :
    (countRows d wrap x0 y0 c xs n).1 =
      ∑ k in Finset.range n,
        ((Finset.range xs).filter
          (fun j : ℕ => pixelWhite d ((y0 + (k : ℤ)) * wrap + 3 * x0 + 3 * (j : ℤ)) c = true)).card := by
  induction n with
  | zero => simp [countRows]
  | succ n ih => rw [Finset.sum_range_succ]; simp [countRows, ih, countRow_fst]

theorem countRows_snd (d : Buf) (wrap x0 y0 : ℤ) (c : ℕ) (xs n : ℕ) :
    (countRows d wrap x0 y0 c xs n).2 =
      ∑ k in Finset.range n,
        ((Finset.range xs).filter
          (fun j : ℕ => pixelWhite d ((y0 + (k : ℤ)) * wrap + 3 * x0 + 3 * (j : ℤ)) c = false)).card := by
  induction n with
  | zero => simp [countRows]
  | succ n ih => rw [Finset.sum_range_succ]; simp [countRows, ih, countRow_snd]

theorem whiteCount_eq_sum (d : Buf) (wrap : ℤ) (r : rectangle_coords) (c : ℕ) :
    whiteCount d wrap r c =
      ∑ k in Finset.range r.y_size.toNat,
        ((Finset.range r.x_size.toNat).filter
          (fun j : ℕ => pixelWhite d ((r.top_left.y + (k : ℤ)) * wrap + 3 * r.top_left.x + 3 * (j : ℤ)) c = true)).card := by
  unfold whiteCount
  rw [Finset.card_filter, Finset.sum_product]
  exact Finset.sum_congr rfl fun k _ => (Finset.card_filter _ _).symm

theorem notWhiteCount_eq_sum (d : Buf) (wrap : ℤ) (r : rectangle_coords) (c : ℕ) :
    notWhiteCount d wrap r c =
      ∑ k in Finset.range r.y_size.toNat,
        ((Finset.range r.x_size.toNat).filter
          (fun j : ℕ => pixelWhite d ((r.top_left.y + (k : ℤ)) * wrap + 3 * r.top_left.x + 3 * (j : ℤ)) c = false)).card := by
  unfold notWhiteCount
  rw [Finset.card_filter, Finset.sum_product]
  exact Finset.sum_congr rfl fun k _ => (Finset.card_filter _ _).symm

theorem white_rectangle_iff (d : Buf) (wrap : ℤ) (r : rectangle_coords) (s : ℚ) (c : ℕ) :
    white_rectangle d wrap r s c = true ↔
      s * (notWhiteCount d wrap r c : ℚ) ≤ (whiteCount d wrap r c : ℚ) := by
  have h1 : (countRows d wrap r.top_left.x r.top_left.y c r.x_size.toNat r.y_size.toNat).1
      = whiteCount d wrap r c := by rw [countRows_fst, whiteCount_eq_sum]
  have h2 : (countRows d wrap r.top_left.x r.top_left.y c r.x_size.toNat r.y_size.toNat).2
      = notWhiteCount d wrap r c := by rw [countRows_snd, notWhiteCount_eq_sum]
  simp only [white_rectangle, h1, h2]
  by_cases hc : s * (notWhiteCount d wrap r c : ℚ) > (whiteCount d wrap r c : ℚ)
  · simp [hc, not_le.mpr hc]
  · simp [hc, le_of_not_lt hc]

unseal Rat.mul Rat.add Rat.sub Rat.inv in
/-- Claim C1 counterexample: on a rectangle with one white and one
not-white pixel, the sampler returns true at tolerance 1 and false at the
larger tolerance 2, so increasing the tolerance turns a true result into
false — the claimed direction of monotonicity fails. -/
theorem C1_counterexample :
    white_rectangle d1 6 r12 1 10 = true ∧ white_rectangle d1 6 r12 2 10 = false := by
  constructor <;> decide

/-- Claim C1 (amended): the Region Sampler is antitone in the tolerance:
for fixed pixel data, if it returns true at tolerance t2 and t1 ≤ t2 then
it returns true at t1; equivalently, increasing the tolerance can only turn
a true result into false, never a false result into true. -/
theorem C1_amended_antitone (data : Buf) (wrap : ℤ) (r : rectangle_coords) (c : ℕ)
    (t₁ t₂ : ℚ) (hle : t₁ ≤ t₂) (h : white_rectangle data wrap r t₂ c = true) :
    white_rectangle data wrap r t₁ c = true := by
  rw [white_rectangle_iff] at h ⊢
  calc t₁ * (notWhiteCount data wrap r c : ℚ)
      ≤ t₂ * (notWhiteCount data wrap r c : ℚ) :=
        mul_le_mul_of_nonneg_right hle (by positivity)
    _ ≤ (whiteCount data wrap r c : ℚ) := h

unseal Rat.mul Rat.add Rat.sub Rat.inv in
/-- Witness for C1 at a concrete input: tolerance 1/2 ≤ 1 and the sampler
is true at 1, hence true at 1/2. -/
theorem C1_witness :
    ((1 : ℚ) / 2 ≤ 1) ∧ white_rectangle d1 6 r12 1 10 = true ∧
      white_rectangle d1 6 r12 (1 / 2) 10 = true :=
  ⟨by norm_num, by decide, C1_amended_antitone d1 6 r12 10 (1 / 2) 1 (by norm_num) (by decide)⟩

/-- Claim C3: the Region Sampler returns true iff
`tolerance * not_white_count ≤ white_count`, where a pixel is white iff all
three channels strictly exceed the threshold; a rectangle whose pixels have
all channels exactly equal to the threshold is counted entirely not-white,
and one with all channels equal to threshold + 1 entirely white. -/
theorem C3_sampler_spec (data : Buf) (wrap : ℤ) (r : rectangle_coords) (t : ℚ) (c : ℕ)
    (ht : 0 ≤ t) (hc : c ≤ 255) :
    (white_rectangle data wrap r t c = true ↔
      t * (notWhiteCount data wrap r c : ℚ) ≤ (whiteCount data wrap r c : ℚ)) ∧
    ((∀ k, k < r.y_size.toNat → ∀ j, j < r.x_size.toNat →
        data ((r.top_left.y + (k : ℤ)) * wrap + 3 * r.top_left.x + 3 * (j : ℤ)) = c ∧
        data ((r.top_left.y + (k : ℤ)) * wrap + 3 * r.top_left.x + 3 * (j : ℤ) + 1) = c ∧
        data ((r.top_left.y + (k : ℤ)) * wrap + 3 * r.top_left.x + 3 * (j : ℤ) + 2) = c) →
      whiteCount data wrap r c = 0 ∧
        notWhiteCount data wrap r c = r.y_size.toNat * r.x_size.toNat) ∧
    ((∀ k, k < r.y_size.toNat → ∀ j, j < r.x_size.toNat →
        data ((r.top_left.y + (k : ℤ)) * wrap + 3 * r.top_left.x + 3 * (j : ℤ)) = c + 1 ∧
        data ((r.top_left.y + (k : ℤ)) * wrap + 3 * r.top_left.x + 3 * (j : ℤ) + 1) = c + 1 ∧
        data ((r.top_left.y + (k : ℤ)) * wrap + 3 * r.top_left.x + 3 * (j : ℤ) + 2) = c + 1) →
      whiteCount data wrap r c = r.y_size.toNat * r.x_size.toNat ∧
        notWhiteCount data wrap r c = 0) := by
  refine ⟨white_rectangle_iff data wrap r t c, fun h => ⟨?_, ?_⟩, fun h => ⟨?_, ?_⟩⟩
  · rw [whiteCount, Finset.card_eq_zero, Finset.filter_eq_empty_iff]
    rintro ⟨k, j⟩ hm
    rw [Finset.mem_product, Finset.mem_range, Finset.mem_range] at hm
    obtain ⟨h1, h2, h3⟩ := h k hm.1 j hm.2
    simp [pixelWhite, h1, h2, h3]
  · rw [notWhiteCount, Finset.filter_eq_self.mpr, Finset.card_product,
      Finset.card_range, Finset.card_range]
    rintro ⟨k, j⟩ hm
    rw [Finset.mem_product, Finset.mem_range, Finset.mem_range] at hm
    obtain ⟨h1, h2, h3⟩ := h k hm.1 j hm.2
    simp [pixelWhite, h1, h2, h3]
  · rw [whiteCount, Finset.filter_eq_self.mpr, Finset.card_product,
      Finset.card_range, Finset.card_range]
    rintro ⟨k, j⟩ hm
    rw [Finset.mem_product, Finset.mem_range, Finset.mem_range] at hm
    obtain ⟨h1, h2, h3⟩ := h k hm.1 j hm.2
    simp [pixelWhite, h1, h2, h3]
  · rw [notWhiteCount, Finset.card_eq_zero, Finset.filter_eq_empty_iff]
    rintro ⟨k, j⟩ hm
    rw [Finset.mem_product, Finset.mem_range, Finset.mem_range] at hm
    obtain ⟨h1, h2, h3⟩ := h k hm.1 j hm.2
    simp [pixelWhite, h1, h2, h3]

/-- Witness for C3 at concrete inputs: a 2 by 2 rectangle of all-5 pixels
at threshold 5 is entirely not-white, a 2 by 2 rectangle of all-6 pixels is
entirely white, and the acceptance inequality characterizes the result. -/
theorem C3_witness :
    whiteCount buf5 6 r22 5 = 0 ∧
    notWhiteCount buf5 6 r22 5 = r22.y_size.toNat * r22.x_size.toNat ∧
    whiteCount buf6 6 r22 5 = r22.y_size.toNat * r22.x_size.toNat ∧
    notWhiteCount buf6 6 r22 5 = 0 ∧
    (white_rectangle buf5 6 r22 1 5 = true ↔
      (1 : ℚ) * (notWhiteCount buf5 6 r22 5 : ℚ) ≤ (whiteCount buf5 6 r22 5 : ℚ)) :=
  ⟨((C3_sampler_spec buf5 6 r22 1 5 (by norm_num) (by norm_num)).2.1 (by decide)).1,
   ((C3_sampler_spec buf5 6 r22 1 5 (by norm_num) (by norm_num)).2.1 (by decide)).2,
   ((C3_sampler_spec buf6 6 r22 1 5 (by norm_num) (by norm_num)).2.2 (by decide)).1,
   ((C3_sampler_spec buf6 6 r22 1 5 (by norm_num) (by norm_num)).2.2 (by decide)).2,
   (C3_sampler_spec buf5 6 r22 1 5 (by norm_num) (by norm_num)).1⟩

/-- Claim C9: the Region Sampler applied to a rectangle of zero width or
zero height returns true: both counts are zero and the acceptance
inequality `t * 0 ≤ 0` holds vacuously. -/
theorem C9_empty_rect_white (data : Buf) (wrap : ℤ) (r : rectangle_coords) (t : ℚ) (c : ℕ)
    (h : r.x_size = 0 ∨ r.y_size = 0) :
    white_rectangle data wrap r t c = true := by
  rw [white_rectangle_iff]
  rcases h with h | h <;> simp [whiteCount, notWhiteCount, h]

/-- Witness for C9: a zero-width rectangle is accepted as near-white by the
sampler on the all-black buffer. -/
theorem C9_witness :
    (rEmpty.x_size = 0 ∨ rEmpty.y_size = 0) ∧ white_rectangle bufZero 6 rEmpty 7 9 = true :=
  ⟨Or.inl rfl, C9_empty_rect_white bufZero 6 rEmpty 7 9 (Or.inl rfl)⟩

theorem countChangedRow_eq (data_old data_new : Buf) (b : ℤ) (n : ℕ) :
    countChangedRow data_old data_new b n =
      ((Finset.range n).filter
        (fun j : ℕ => pixelChanged data_old data_new (b + 3 * (j : ℤ)) = true)).card := by
  induction n with
  | zero => simp [countChangedRow]
  | succ n ih =>
    rw [Finset.range_succ, Finset.filter_insert]
    by_cases h : pixelChanged data_old data_new (b + 3 * (n : ℤ)) = true
    · rw [if_pos h, Finset.card_insert_of_not_mem (by simp)]
      simp [countChangedRow, h, ih]
    · rw [if_neg h]
      simp [countChangedRow, h, ih]

theorem countChangedRows_eq (data_old data_new : Buf) (wrap x0 y0 : ℤ) (xs n : ℕ) :
    countChangedRows data_old data_new wrap x0 y0 xs n =
      ∑ k in Finset.range n,
        ((Finset.range xs).filter
          (fun j : ℕ => pixelChanged data_old data_new
            ((y0 + (k : ℤ)) * wrap + 3 * x0 + 3 * (j : ℤ)) = true)).card := by
  induction n with
  | zero => simp [countChangedRows]
  | succ n ih => rw [Finset.sum_range_succ]; simp [countChangedRows, ih, countChangedRow_eq]

theorem changedCount_eq_sum (data_old data_new : Buf) (wrap : ℤ) (r : rectangle_coords) :
    changedCount data_old data_new wrap r =
      ∑ k in Finset.range r.y_size.toNat,
        ((Finset.range r.x_size.toNat).filter
          (fun j : ℕ => pixelChanged data_old data_new
            ((r.top_left.y + (k : ℤ)) * wrap + 3 * r.top_left.x + 3 * (j : ℤ)) = true)).card := by
  unfold changedCount
  rw [Finset.card_filter, Finset.sum_product]
  exact Finset.sum_congr rfl fun k _ => (Finset.card_filter _ _).symm

theorem absdiff_comm (a b : ℕ) : absdiff a b = absdiff b a := by
  by_cases h1 : a > b <;> by_cases h2 : b > a <;> simp [absdiff, h1, h2] <;> omega

theorem pixelChanged_comm (data_old data_new : Buf) (a : ℤ) :
    pixelChanged data_old data_new a = pixelChanged data_new data_old a := by
  simp only [pixelChanged, absdiff_comm]

theorem pixelChanged_self (data : Buf) (a : ℤ) : pixelChanged data data a = false := by
  simp [pixelChanged, absdiff]

/-- Claim C5: the Change Detector returns true iff the number of pixels in
the content rectangle with some channel differing by more than 50 strictly
exceeds `300 * scale^2`; it is symmetric in its two frames and false on two
identical frames. -/
theorem C5_change_detector (data_old data_new : Buf) (wrap : ℤ) (ts : rectangle_coords) :
    (compare_textboxes data_old data_new wrap ts = true ↔
      300 * ts.magnification * ts.magnification <
        (changedCount data_old data_new wrap (content_rect ts) : ℚ)) ∧
    compare_textboxes data_old data_new wrap ts = compare_textboxes data_new data_old wrap ts ∧
    compare_textboxes data_old data_old wrap ts = false := by
  have hloop : ∀ dOld dNew : Buf, countChangedRows dOld dNew wrap
      (content_rect ts).top_left.x (content_rect ts).top_left.y
      (content_rect ts).x_size.toNat (content_rect ts).y_size.toNat
      = changedCount dOld dNew wrap (content_rect ts) := fun dOld dNew => by
    rw [countChangedRows_eq, changedCount_eq_sum]
  refine ⟨?_, ?_, ?_⟩
  · simp only [compare_textboxes, hloop]
    by_cases hc : 300 * ts.magnification * ts.magnification <
        (changedCount data_old data_new wrap (content_rect ts) : ℚ)
    · simp [hc]
    · simp [hc]
  · have hsym : changedCount data_old data_new wrap (content_rect ts)
        = changedCount data_new data_old wrap (content_rect ts) := by
      unfold changedCount
      congr 1
      exact Finset.filter_congr fun p _ => by rw [pixelChanged_comm]
    simp only [compare_textboxes, hloop, hsym]
  · have hzero : changedCount data_old data_old wrap (content_rect ts) = 0 := by
      rw [changedCount, Finset.card_eq_zero, Finset.filter_eq_empty_iff]
      intro p _
      simp [pixelChanged_self]
    simp only [compare_textboxes, hloop, hzero]
    have hnn : ¬ (300 * ts.magnification * ts.magnification < ((0 : ℕ) : ℚ)) := by
      push_cast
      nlinarith [mul_self_nonneg ts.magnification]
    rw [if_neg hnn]

/-- Claim C6: the Frame Classifier returns NONE when the thin bottom strip
is not near-white, and whenever the left or the right border strip is
near-white (each check independently forcing NONE). -/
theorem C6_classifier_none (data : Buf) (wrap : ℤ) (ts : rectangle_coords) :
    (white_rectangle data wrap (bottom_white_line ts) 1 235 = false →
      textbox data wrap ts = 0) ∧
    (white_rectangle data wrap (left_border ts) 1 235 = true →
      textbox data wrap ts = 0) ∧
    (white_rectangle data wrap (right_border ts) 1 235 = true →
      textbox data wrap ts = 0) := by
  refine ⟨fun h => ?_, fun h => ?_, fun h => ?_⟩
  · simp [textbox, h]
  · by_cases hb : white_rectangle data wrap (bottom_white_line ts) 1 235 = false
    · simp [textbox, hb]
    · simp [textbox, hb, h]
  · by_cases hb : white_rectangle data wrap (bottom_white_line ts) 1 235 = false
    · simp [textbox, hb]
    · by_cases hl : white_rectangle data wrap (left_border ts) 1 235 = true
      · simp [textbox, hb, hl]
      · simp [textbox, hb, hl, h]

unseal Rat.mul Rat.add Rat.sub Rat.inv in
/-- Witness for C6: on the all-black frame with the 170 by 74 geometry the
bottom strip is not near-white and the classifier returns NONE. -/
theorem C6_witness :
    white_rectangle bufZero 510 (bottom_white_line g170) 1 235 = false ∧
      textbox bufZero 510 g170 = 0 :=
  ⟨by decide, (C6_classifier_none bufZero 510 g170).1 (by decide)⟩

unseal Rat.mul Rat.add Rat.sub Rat.inv in
/-- Claim C7 counterexample: on the non-positive dimensions 0 and -3 the
Geometry Resolver does not fail: it silently returns a fully formed
Geometry. -/
theorem C7_counterexample :
    top_screen_coords 0 (-3) =
      { top_left := ⟨0, 0⟩, x_size := 0, y_size := -3, magnification := 0 } := by
  decide

/-- Claim C7 (amended): the Geometry Resolver performs no validation and
totally computes a Geometry from any dimensions; for positive dimensions it
returns top-left x = width/4 (C truncating division), y = 0, region width =
width - x (which is positive), region height = height, and scale = region
width / 256 (which is positive). -/
theorem C7_amended_total (w h : ℤ) (hw : 0 < w) (hh : 0 < h) :
    (top_screen_coords w h).top_left.x = Int.tdiv w 4 ∧
    (top_screen_coords w h).top_left.y = 0 ∧
    (top_screen_coords w h).x_size = w - Int.tdiv w 4 ∧
    (top_screen_coords w h).y_size = h ∧
    (top_screen_coords w h).magnification = ((top_screen_coords w h).x_size : ℚ) / 256 ∧
    0 < (top_screen_coords w h).x_size ∧
    0 < (top_screen_coords w h).magnification := by
  have htd : Int.tdiv w 4 = w / 4 := Int.tdiv_eq_ediv (le_of_lt hw) (by norm_num)
  have hxs : 0 < w - Int.tdiv w 4 := by rw [htd]; omega
  refine ⟨rfl, rfl, rfl, rfl, rfl, hxs, ?_⟩
  show 0 < ((w - Int.tdiv w 4 : ℤ) : ℚ) / 256
  apply div_pos _ (by norm_num)
  exact_mod_cast hxs

/-- Witness for C7 at the spec's example dimensions 800 by 480: region
top-left (200, 0), size 600 by 480, positive scale 600/256. -/
theorem C7_witness :
    (top_screen_coords 800 480).top_left.x = Int.tdiv 800 4 ∧
    (top_screen_coords 800 480).top_left.y = 0 ∧
    (top_screen_coords 800 480).x_size = 800 - Int.tdiv 800 4 ∧
    (top_screen_coords 800 480).y_size = 480 ∧
    (top_screen_coords 800 480).magnification
      = ((top_screen_coords 800 480).x_size : ℚ) / 256 ∧
    0 < (top_screen_coords 800 480).x_size ∧
    0 < (top_screen_coords 800 480).magnification :=
  C7_amended_total 800 480 (by norm_num) (by norm_num)

/-- Claim C2 (amended): on an {OPEN, LARGE_TEXT} to {SCROLL_A, SCROLL_B,
SCROLL_C} transition with insta-textbox false, the machine captures the
previous frame using the full textbox content rectangle regardless of the
pending-second-line flag, leaves pending-second-line unchanged, and appends
the recognized text to output without a line terminator. -/
theorem C2_amended_scroll (ocr : Buf → rectangle_coords → String) (wrap : ℤ)
    (ts : rectangle_coords) (st : pt_state) (frame : Buf)
    (h1 : st.old_textbox = 1 ∨ st.old_textbox = 5)
    (h2 : st.insta_textbox = false)
    (h3 : textbox frame wrap ts = 2 ∨ textbox frame wrap ts = 3 ∨ textbox frame wrap ts = 4) :
    (step ocr wrap ts st frame).1 =
      [event.cap st.old_frame (content_rect ts) (ocr st.old_frame (content_rect ts)),
       event.out_frag (ocr st.old_frame (content_rect ts))] ∧
    (step ocr wrap ts st frame).2.only_second_line = st.only_second_line ∧
    (step ocr wrap ts st frame).2.insta_textbox = false := by
  rcases h3 with h3 | h3 | h3 <;> rcases h1 with h1 | h1 <;>
    simp [step, h1, h2, h3]

unseal Rat.mul Rat.add Rat.sub Rat.inv in
/-- Claim C2 counterexample: with the pending-second-line flag set and a
frame classifying as SCROLL_A, the emitted capture uses the full content
rectangle (not the distinct second-line rectangle) and the flag stays set,
contradicting "the capture uses only the second-line sub-rectangle and the
flag is honored". -/
theorem C2_counterexample :
    stC2.only_second_line = true ∧
    stC2.insta_textbox = false ∧
    textbox F2 510 g170 = 2 ∧
    (step ocrK 510 g170 stC2 F2).1
      = [event.cap bufZero (content_rect g170) "K", event.out_frag "K"] ∧
    (step ocrK 510 g170 stC2 F2).2.only_second_line = true ∧
    content_rect g170 ≠ second_line_rect g170 := by
  exact ⟨rfl, rfl, by decide, rfl, rfl, by decide⟩

unseal Rat.mul Rat.add Rat.sub Rat.inv in
/-- Witness for C2 at a concrete input: previous code OPEN, insta-textbox
false, pending-second-line set, current frame classifying SCROLL_A. -/
theorem C2_witness :
    (stC2.old_textbox = 1 ∨ stC2.old_textbox = 5) ∧ stC2.insta_textbox = false ∧
    textbox F2 510 g170 = 2 ∧
    ((step ocrK 510 g170 stC2 F2).1 =
      [event.cap stC2.old_frame (content_rect g170) (ocrK stC2.old_frame (content_rect g170)),
       event.out_frag (ocrK stC2.old_frame (content_rect g170))] ∧
     (step ocrK 510 g170 stC2 F2).2.only_second_line = stC2.only_second_line ∧
     (step ocrK 510 g170 stC2 F2).2.insta_textbox = false) :=
  ⟨Or.inl rfl, rfl, by decide,
   C2_amended_scroll ocrK 510 g170 stC2 F2 (Or.inl rfl) rfl (Or.inl (by decide))⟩

/-- Claim C4: on an {OPEN, LARGE_TEXT} to NONE transition with the
insta-textbox flag true, the machine emits no capture request and appends
nothing to output, and the insta-textbox flag is cleared. -/
theorem C4_flicker_no_capture (ocr : Buf → rectangle_coords → String) (wrap : ℤ)
    (ts : rectangle_coords) (st : pt_state) (frame : Buf)
    (h1 : st.old_textbox = 1 ∨ st.old_textbox = 5)
    (h2 : st.insta_textbox = true)
    (h3 : textbox frame wrap ts = 0) :
    (step ocr wrap ts st frame).1 = [] ∧
    (step ocr wrap ts st frame).2.insta_textbox = false := by
  rcases h1 with h1 | h1 <;> simp [step, h1, h2, h3]

unseal Rat.mul Rat.add Rat.sub Rat.inv in
/-- Witness for C4 at a concrete input: previous code OPEN, insta-textbox
set, current frame classifying NONE; no events, flag cleared. -/
theorem C4_witness :
    (stC4.old_textbox = 1 ∨ stC4.old_textbox = 5) ∧ stC4.insta_textbox = true ∧
    textbox bufZero 30 g10 = 0 ∧
    ((step ocrK 30 g10 stC4 bufZero).1 = [] ∧
     (step ocrK 30 g10 stC4 bufZero).2.insta_textbox = false) :=
  ⟨Or.inl rfl, rfl, by decide,
   C4_flicker_no_capture ocrK 30 g10 stC4 bufZero (Or.inl rfl) rfl (by decide)⟩

/-- Claim C8 (amended): whenever the previous code is a scroll state the
machine emits no events on the current frame; besides the end-of-frame
history and previous-code update it sets pending-second-line to true, and
additionally clears insta-textbox when the current code is NONE (otherwise
insta-textbox is unchanged). -/
theorem C8_amended_scroll_prev (ocr : Buf → rectangle_coords → String) (wrap : ℤ)
    (ts : rectangle_coords) (st : pt_state) (frame : Buf)
    (h : st.old_textbox = 2 ∨ st.old_textbox = 3 ∨ st.old_textbox = 4) :
    (step ocr wrap ts st frame).1 = [] ∧
    (step ocr wrap ts st frame).2.only_second_line = true ∧
    (step ocr wrap ts st frame).2.insta_textbox =
      (if textbox frame wrap ts = 0 then false else st.insta_textbox) ∧
    (step ocr wrap ts st frame).2.old_textbox = textbox frame wrap ts ∧
    (step ocr wrap ts st frame).2.old_frame = copy_data st.old_frame frame wrap ts := by
  rcases h with h | h | h <;> simp [step, h]

unseal Rat.mul Rat.add Rat.sub Rat.inv in
/-- Claim C8 counterexample: previous code SCROLL_A with insta-textbox set
and the current frame classifying NONE: no capture is emitted, but the
insta-textbox flag is also cleared — a state change beyond setting
pending-second-line, contradicting "the only state change". -/
theorem C8_counterexample :
    stC8.old_textbox = 2 ∧ stC8.insta_textbox = true ∧
    (step ocrK 30 g10 stC8 bufZero).1 = [] ∧
    (step ocrK 30 g10 stC8 bufZero).2.insta_textbox = false := by
  exact ⟨rfl, rfl, rfl, rfl⟩

/-- Witness for C8 at a concrete input with previous code SCROLL_A. -/
theorem C8_witness :
    (stC8.old_textbox = 2 ∨ stC8.old_textbox = 3 ∨ stC8.old_textbox = 4) ∧
    ((step ocrK 30 g10 stC8 bufZero).1 = [] ∧
     (step ocrK 30 g10 stC8 bufZero).2.only_second_line = true ∧
     (step ocrK 30 g10 stC8 bufZero).2.insta_textbox =
       (if textbox bufZero 30 g10 = 0 then false else stC8.insta_textbox) ∧
     (step ocrK 30 g10 stC8 bufZero).2.old_textbox = textbox bufZero 30 g10 ∧
     (step ocrK 30 g10 stC8 bufZero).2.old_frame = copy_data stC8.old_frame bufZero 30 g10) :=
  ⟨Or.inl rfl, C8_amended_scroll_prev ocrK 30 g10 stC8 bufZero (Or.inl rfl)⟩

theorem copyRow_eq (dst src : Buf) (base : ℤ) (n : ℕ) (a : ℤ) :
    copyRow dst src base n a =
      if base ≤ a ∧ a < base + 3 * (n : ℤ) then src a else dst a := by
  induction n with
  | zero =>
    rw [show copyRow dst src base 0 = dst from rfl, if_neg (by omega)]
  | succ n ih =>
    have hstep : copyRow dst src base (n + 1) a =
        if a = base + 3 * (n : ℤ) ∨ a = base + 3 * (n : ℤ) + 1 ∨ a = base + 3 * (n : ℤ) + 2
        then src a else copyRow dst src base n a := rfl
    rw [hstep, ih]
    split_ifs <;> first | rfl | omega

theorem copyRows_outside (dst src : Buf) (wrap x0 y0 : ℤ) (xs n : ℕ) (a : ℤ)
    (h : ∀ k, k < n →
      ¬ ((y0 + (k : ℤ)) * wrap + 3 * x0 ≤ a ∧
         a < (y0 + (k : ℤ)) * wrap + 3 * x0 + 3 * (xs : ℤ))) :
    copyRows dst src wrap x0 y0 xs n a = dst a := by
  induction n with
  | zero => rfl
  | succ n ih =>
    have hstep : copyRows dst src wrap x0 y0 xs (n + 1) a =
        copyRow (copyRows dst src wrap x0 y0 xs n) src ((y0 + (n : ℤ)) * wrap + 3 * x0) xs a :=
      rfl
    rw [hstep, copyRow_eq, if_neg (h n (Nat.lt_succ_self n))]
    exact ih fun k hk => h k (Nat.lt_succ_of_lt hk)

theorem copyRows_inside (dst src : Buf) (wrap x0 y0 : ℤ) (xs n : ℕ) (a : ℤ) (k : ℕ)
    (hk : k < n)
    (hlo : (y0 + (k : ℤ)) * wrap + 3 * x0 ≤ a)
    (hhi : a < (y0 + (k : ℤ)) * wrap + 3 * x0 + 3 * (xs : ℤ)) :
    copyRows dst src wrap x0 y0 xs n a = src a := by
  induction n with
  | zero => omega
  | succ n ih =>
    have hstep : copyRows dst src wrap x0 y0 xs (n + 1) a =
        copyRow (copyRows dst src wrap x0 y0 xs n) src ((y0 + (n : ℤ)) * wrap + 3 * x0) xs a :=
      rfl
    rw [hstep, copyRow_eq]
    by_cases hcov : (y0 + (n : ℤ)) * wrap + 3 * x0 ≤ a ∧
        a < (y0 + (n : ℤ)) * wrap + 3 * x0 + 3 * (xs : ℤ)
    · rw [if_pos hcov]
    · rw [if_neg hcov]
      rcases Nat.lt_succ_iff_lt_or_eq.mp hk with hk2 | hk2
      · exact ih hk2
      · subst hk2
        exact absurd ⟨hlo, hhi⟩ hcov

/-- Claim C10: `copy_data` overwrites exactly the content rectangle of the
history buffer with the current frame's bytes: a byte address covered by
some row of the content rectangle receives the current frame's byte, and
every other address keeps the history buffer's byte. -/
theorem C10_copy_only_content (old_data data : Buf) (wrap : ℤ) (ts : rectangle_coords)
    (a : ℤ) :
    ((∀ k, k < (content_rect ts).y_size.toNat →
        ¬ (((content_rect ts).top_left.y + (k : ℤ)) * wrap
              + 3 * (content_rect ts).top_left.x ≤ a ∧
           a < ((content_rect ts).top_left.y + (k : ℤ)) * wrap
              + 3 * (content_rect ts).top_left.x + 3 * ((content_rect ts).x_size.toNat : ℤ))) →
      copy_data old_data data wrap ts a = old_data a) ∧
    (∀ k, k < (content_rect ts).y_size.toNat →
      ((content_rect ts).top_left.y + (k : ℤ)) * wrap
          + 3 * (content_rect ts).top_left.x ≤ a →
      a < ((content_rect ts).top_left.y + (k : ℤ)) * wrap
          + 3 * (content_rect ts).top_left.x + 3 * ((content_rect ts).x_size.toNat : ℤ) →
      copy_data old_data data wrap ts a = data a) := by
  constructor
  · intro h
    exact copyRows_outside old_data data wrap (content_rect ts).top_left.x
      (content_rect ts).top_left.y (content_rect ts).x_size.toNat
      (content_rect ts).y_size.toNat a h
  · intro k hk hlo hhi
    exact copyRows_inside old_data data wrap (content_rect ts).top_left.x
      (content_rect ts).top_left.y (content_rect ts).x_size.toNat
      (content_rect ts).y_size.toNat a k hk hlo hhi

unseal Rat.mul Rat.add Rat.sub Rat.inv in
/-- Witness for C10 at a concrete input: with the 10 by 10 geometry and row
stride 30, address 0 lies outside the content rectangle (its single row
covers addresses 156 to 176) and keeps the history buffer's byte, while
address 156 receives the current frame's byte. -/
theorem C10_witness :
    (∀ k, k < (content_rect g10).y_size.toNat →
      ¬ (((content_rect g10).top_left.y + (k : ℤ)) * 30
            + 3 * (content_rect g10).top_left.x ≤ 0 ∧
         (0 : ℤ) < ((content_rect g10).top_left.y + (k : ℤ)) * 30
            + 3 * (content_rect g10).top_left.x + 3 * ((content_rect g10).x_size.toNat : ℤ))) ∧
    copy_data buf7 bufZero 30 g10 0 = buf7 0 ∧
    copy_data buf7 bufZero 30 g10 156 = bufZero 156 :=
  ⟨by decide,
   (C10_copy_only_content buf7 bufZero 30 g10 0).1 (by decide),
   (C10_copy_only_content buf7 bufZero 30 g10 156).2 0 (by decide) (by decide) (by decide)⟩
